import Mathlib

/-!
# Verification of the HeMilch combat core

A shallow embedding of the combat simulator's core operations, translated
from the TypeScript source:

* `Fighter` state and the operations `receiveHit`, `takeDamage` and the
  attack1 input/timer step (`src/qte/fighter.ts`),
* the per-tick melee and projectile combat-resolution blocks and `aabb`
  (the game-loop module),
* the heatmap solidity query `isSolidAtCanvasPoint` (the game-loop module),
* the agent controller `SimpleAI.update` (`src/qte/simpleAi.ts`).

Modelling conventions:

* JS numbers are modelled as exact rationals (`ℚ`); `Math.floor` is
  `Int.floor`, `Math.ceil` is `Int.ceil`, `Math.round` is `jsRound`
  (floor of `q + 1/2`, JS half-up rounding).
* The hit angle is only ever consumed through `Math.cos`/`Math.sin`, so the
  optional `angleRad` argument is represented by the pair
  `(cos angleRad, sin angleRad)`; call sites pass `0 ↦ (1, 0)` and
  `Math.PI ↦ (-1, 0)`.
* JS object identity (`pr.owner !== p2`) is modelled by numeric tags.
* `heatmapCtx.getImageData(x, y, 1, 1).data[3]` is modelled by a total
  oracle `ℤ → ℤ → Option ℕ`; `none` models a throwing `getImageData`,
  which the source catches, returning `false`.
* Purely visual bookkeeping (sprite animators, blast spawning, console
  logging, dev flash timers) is not part of the state; the animator's
  current state name is kept as the `animState` field where the source
  calls `anim.setState`.
-/

/-- JS `Math.round`: round half toward positive infinity. -/
def jsRound (q : ℚ) : ℤ := ⌊q + 1/2⌋

/-- Axis-aligned rectangle, from the `Rect` interface in `fighter.ts`. -/
structure Rect where
  x : ℚ
  y : ℚ
  w : ℚ
  h : ℚ
deriving DecidableEq

/-- Overlap test, translated from `aabb` in the game-loop module:
`!(a.x + a.w < b.x || b.x + b.w < a.x || a.y + a.h < b.y || b.y + b.h < a.y)`. -/
def aabb (a b : Rect) : Bool :=
  !(decide (a.x + a.w < b.x) || decide (b.x + b.w < a.x) ||
    decide (a.y + a.h < b.y) || decide (b.y + b.h < a.y))

/-- Mechanical state of a `Fighter` (`fighter.ts`).  Fields that only feed
rendering or per-character sprite patching are omitted; `animState` mirrors
`this.anim.state`, and `hasHurtAnim`/`hasDefeatAnim` mirror whether
`this.anim.animations` contains the corresponding clip. -/
structure Fighter where
  tag : ℕ := 0
  x : ℚ := 0
  y : ℚ := 0
  w : ℚ := 256
  h : ℚ := 256
  vx : ℚ := 0
  vy : ℚ := 0
  facing : ℚ := 1
  hp : ℚ := 3
  maxHp : ℚ := 3
  damagePercent : ℚ := 0
  stocks : ℤ := 3
  onGround : Bool := false
  state : String := "idle"
  animState : String := "idle"
  hasHurtAnim : Bool := true
  hasDefeatAnim : Bool := true
  attacking1 : Bool := false
  attacking2 : Bool := false
  parrying : Bool := false
  ranging1 : Bool := false
  ranging2 : Bool := false
  attack1Launched : Bool := false
  attack2Launched : Bool := false
  laurinAttack1ProjectileLaunched : Bool := false
  hurt : Bool := false
  flying : Bool := false
  attack1Timer : ℚ := 0
  attack2Timer : ℚ := 0
  parryTimer : ℚ := 0
  parryFreezeTimer : ℚ := 0
  parryCooldown : ℚ := 0
  stunTimer : ℚ := 0
  hurtTimer : ℚ := 0
  parryConsumed : Bool := false
  parryDurationDefault : ℚ := 1/4
  launchedFromHit : Bool := false
  characterId : Option String := none
  canvasW : ℚ := 0
  canvasH : ℚ := 0
deriving DecidableEq

/-- The centered hurtbox, translated from `Fighter.rect`. -/
def Fighter.rect (f : Fighter) : Rect :=
  let hurtW : ℚ := max 1 (⌊f.w * (1/2)⌋ : ℚ)
  let hurtH : ℚ := max 1 (⌊f.h * (1/2)⌋ : ℚ)
  let hurtX : ℚ := f.x + (⌊(f.w - hurtW) * (1/2)⌋ : ℚ)
  let hurtY : ℚ := f.y + (⌊(f.h - hurtH) * (1/2)⌋ : ℚ)
  ⟨hurtX, hurtY, hurtW, hurtH⟩

/-- The melee hitbox, translated from `Fighter.hitbox`: present only in the
`attack1`/`attack2` states. -/
def Fighter.hitbox (f : Fighter) : Option Rect :=
  if f.state = "attack1" ∨ f.state = "attack2" then
    let aw : ℚ := 60
    let ah : ℚ := 40
    let ax : ℚ := if f.facing > 0 then f.x + f.w - 10 else f.x - (aw - 10)
    let ay : ℚ := f.y + f.h * (55/100) - ah * (1/2)
    some ⟨ax, ay, aw, ah⟩
  else none

/-- Smash-style percent damage and knockback, translated line by line from
`Fighter.receiveHit(percentIncrease, baseKB = 120, strength = 1, angleRad?)`
(`fighter.ts` 1016-1069).  `angle` carries `(cos angleRad, sin angleRad)`
when the optional `angleRad` argument is present. -/
def Fighter.receiveHit (f : Fighter) (percentIncrease baseKB strength : ℚ)
    (angle : Option (ℚ × ℚ)) : Fighter :=
  if f.state = "defeat" then f
  else
    let dp := f.damagePercent + percentIncrease
    let scale := 6 * strength
    let kconst : ℚ := 30
    let kb := baseKB + dp * scale + dp * dp / (kconst + dp)
    -- attackerFromLeft := cos(angleRad) < 0 when angleRad was provided
    let attackerFromLeft : Bool :=
      match angle with
      | some a => decide (a.1 < 0)
      | none => false
    let globalKnockbackMultiplier : ℚ := 1/5
    if dp < 30 then
      let horizontalFactor := 12/100 * strength
      let verticalFactor := 12/100 * strength
      -- ang := angleRad, or (facing > 0 ? π : 0); represented by (cos, sin)
      let ang : ℚ × ℚ :=
        match angle with
        | some a => a
        | none => if f.facing > 0 then ⟨-1, 0⟩ else ⟨1, 0⟩
      { f with
        damagePercent := dp,
        vx := f.vx + ang.1 * kb * horizontalFactor * globalKnockbackMultiplier,
        vy := f.vy + (-ang.2) * kb * verticalFactor * globalKnockbackMultiplier,
        stunTimer := max f.stunTimer (25/100 * strength),
        hurt := true,
        hurtTimer := 3/10,
        animState := if f.hasHurtAnim then ("hurt") else f.animState }
    else
      let clamped := min (max ((dp - 30) / 70) 0) 1
      let scaleMultiplier := 1 + clamped * 2
      let baseJumpVy : ℚ := -350
      let baseHor : ℚ := 150
      let appliedVy := baseJumpVy * scaleMultiplier * globalKnockbackMultiplier
      let dir : ℚ := if attackerFromLeft then 1 else -1
      let appliedVx := baseHor * scaleMultiplier * dir * globalKnockbackMultiplier
      { f with
        damagePercent := dp,
        vx := appliedVx,
        vy := appliedVy,
        onGround := false,
        launchedFromHit := true,
        hurt := true,
        hurtTimer := 45/100,
        animState := if f.hasHurtAnim then ("hurt") else f.animState,
        stunTimer := max f.stunTimer (5/10 * strength) }

/-- Discrete HP damage, translated from `Fighter.takeDamage`
(`fighter.ts` 971-1008). -/
def Fighter.takeDamage (f : Fighter) (amount : ℚ) : Fighter :=
  if f.hp ≤ 0 ∨ f.state = "defeat" then f
  else
    let hp1 := max 0 (f.hp - amount)
    let g : Fighter :=
      { f with
        hp := hp1,
        hurt := true,
        hurtTimer := 3/10,
        animState := if f.hasHurtAnim then ("hurt") else f.animState }
    if hp1 ≤ 0 then
      { g with
        state := "defeat",
        animState := if g.hasDefeatAnim then ("defeat") else ("idle"),
        maxHp := 0 }
    else g

/-- The attack1 input-and-timer block of `Fighter.update`
(`fighter.ts` 505-530): start an attack on a press when not already
attacking or parrying (resetting `attack1Launched`), then run the
0.35 s timer down. -/
def Fighter.attack1InputStep (f : Fighter) (dt : ℚ) (attack1Pressed : Bool) : Fighter :=
  let f1 :=
    if attack1Pressed && !f.attacking1 && !f.parrying then
      { f with
        attacking1 := true,
        state := "attack1",
        animState := "attack1",
        attack1Timer := 35/100,
        attack1Launched := false,
        laurinAttack1ProjectileLaunched :=
          if f.characterId = some ("laurin") then false
          else f.laurinAttack1ProjectileLaunched }
    else f
  if f1.attacking1 then
    let t := f1.attack1Timer - dt
    { f1 with attack1Timer := t, attacking1 := !decide (t ≤ 0) }
  else f1

/-- A projectile (`Projectile` in `fighter.ts`); `ownerTag` models the JS
object reference `pr.owner`. -/
structure Proj where
  x : ℚ := 0
  y : ℚ := 0
  vx : ℚ := 0
  vy : ℚ := 0
  alive : Bool := true
  applyKnockbackOnHit : Bool := true
  ownerTag : ℕ := 0
  displayW : ℚ := 256
  displayH : ℚ := 256
deriving DecidableEq

/-- Translated from `Projectile.rect`. -/
def Proj.rect (pr : Proj) : Rect := ⟨pr.x, pr.y, pr.displayW, pr.displayH⟩

/-- One direction of the per-tick melee resolution block in the game loop
(the `h1 && aabb(h1, p2.rect())` block, part_001 lines 2306-2340; the
symmetric P2→P1 block at 2341-2372 is its mirror image).  `singleplayer`
models `!!npcController` at the call site. -/
def resolveMeleeHit (attacker defender : Fighter) (singleplayer : Bool) :
    Fighter × Fighter :=
  match attacker.hitbox with
  | none => (attacker, defender)
  | some h1 =>
    if aabb h1 defender.rect then
      if attacker.attacking1 || attacker.attacking2 then
        -- launchFlag := attacking1 ? 'attack1Launched' : 'attack2Launched'
        let flagVal :=
          if attacker.attacking1 then attacker.attack1Launched
          else attacker.attack2Launched
        if !flagVal then
          let attacker1 :=
            if attacker.attacking1 then { attacker with attack1Launched := true }
            else { attacker with attack2Launched := true }
          if defender.parrying && !defender.parryConsumed then
            let defender1 :=
              { defender with parryConsumed := true, parryFreezeTimer := 15/100 }
            if attacker1.ranging1 || attacker1.ranging2 then
              -- ranged attack parried: damage negated
              (attacker1, defender1)
            else
              -- melee parried: reflect percent/knockback onto the attacker
              (attacker1.receiveHit 20 120 1
                (some (if defender1.x < attacker1.x then ⟨-1, 0⟩ else ⟨1, 0⟩)),
               defender1)
          else if !defender.parrying || defender.parryConsumed then
            if singleplayer then
              (attacker1,
               defender.takeDamage
                 (⌈(if defender.maxHp = 0 then 1 else defender.maxHp) / 3⌉ : ℚ))
            else
              (attacker1,
               defender.receiveHit 30 140 (6/10)
                 (some (if attacker1.x < defender.x then ⟨-1, 0⟩ else ⟨1, 0⟩)))
          else (attacker1, defender)
        else (attacker, defender)
      else (attacker, defender)
    else (attacker, defender)

/-- One direction of the per-tick projectile-vs-fighter resolution block in
the game loop (part_001 lines 2451-2474 for P2; 2399-2423 is the P1 mirror).
Returns the updated projectile, projectile owner and defender. -/
def resolveProjectileHit (pr : Proj) (owner defender : Fighter) :
    Proj × Fighter × Fighter :=
  if pr.alive && decide (pr.ownerTag ≠ defender.tag) && aabb pr.rect defender.rect then
    if defender.parrying && !defender.parryConsumed then
      ({ pr with alive := false },
       { owner with stunTimer := 12/10 },
       { defender with parryConsumed := true, parryFreezeTimer := 15/100 })
    else if !defender.parrying || defender.parryConsumed then
      let hpDamage : ℚ :=
        max 1 (⌈(if defender.maxHp = 0 then 1 else defender.maxHp) / 12⌉ : ℚ)
      let d1 := defender.takeDamage hpDamage
      let d2 :=
        if pr.applyKnockbackOnHit then
          d1.receiveHit 8 90 (9/10) (some (if pr.vx < 0 then ⟨-1, 0⟩ else ⟨1, 0⟩))
        else { d1 with damagePercent := d1.damagePercent + 8 }
      ({ pr with alive := false }, owner, d2)
    else (pr, owner, defender)
  else (pr, owner, defender)

/-- Environment for the heatmap solidity query in the game loop:
the module-level `heatmapCtx`/`heatmapCanvas`/`stageImg` and the canvas
dimensions `WIDTH`/`HEIGHT`.  `alpha x y` models
`heatmapCtx.getImageData(x, y, 1, 1).data[3]`; `none` models a throwing
`getImageData` (caught by the source's `try`/`catch`). -/
structure HeatmapEnv where
  hasCtx : Bool
  hasCanvas : Bool
  canvasWpx : ℕ
  canvasHpx : ℕ
  hasStageImg : Bool
  stageW : ℕ
  stageH : ℕ
  width : ℚ
  height : ℚ
  alpha : ℤ → ℤ → Option ℕ

/-- The readiness guard of `isSolidAtCanvasPoint`:
`heatmapCtx && heatmapCanvas && heatmapCanvas.width > 0 && stageImg &&
stageImg.naturalWidth > 0`. -/
def heatmapReady (e : HeatmapEnv) : Bool :=
  e.hasCtx && e.hasCanvas && decide (0 < e.canvasWpx) &&
    e.hasStageImg && decide (0 < e.stageW)

/-- The source pixel sampled by `isSolidAtCanvasPoint` for a canvas point:
clamp the canvas point into `[0, WIDTH-1] × [0, HEIGHT-1]`, map through the
letterbox crop of the stage image, and clamp the mapped source coordinates
into the heatmap image bounds.  The source compares the float ratios
`imgW/imgH > WIDTH/HEIGHT`; we use the cross-multiplied comparison, which
agrees for positive dimensions and also for `imgH = 0` (where the JS
quotient is `Infinity`). -/
def sampledPoint (e : HeatmapEnv) (canvasX canvasY : ℚ) : ℤ × ℤ :=
  let safeCanvasX : ℚ := max 0 (min (e.width - 1) (⌊canvasX⌋ : ℚ))
  let safeCanvasY : ℚ := max 0 (min (e.height - 1) (⌊canvasY⌋ : ℚ))
  let imgW : ℚ := e.stageW
  let imgH : ℚ := e.stageH
  let portraitCrop : Bool := decide (imgW * e.height > e.width * imgH)
  let sw : ℚ := if portraitCrop then ((jsRound (imgH * (e.width / e.height)) : ℤ) : ℚ) else imgW
  let sx : ℚ := if portraitCrop then ((jsRound ((imgW - sw) * (1/2)) : ℤ) : ℚ) else 0
  let sh : ℚ := if portraitCrop then imgH else ((jsRound (imgW / (e.width / e.height)) : ℤ) : ℚ)
  let sy : ℚ := if portraitCrop then 0 else ((jsRound ((imgH - sh) * (1/2)) : ℤ) : ℚ)
  let srcX : ℤ := ⌊sx + (safeCanvasX / e.width) * sw⌋
  let srcY : ℤ := ⌊sy + (safeCanvasY / e.height) * sh⌋
  let clampedSrcX : ℤ := max 0 (min ((e.canvasWpx : ℤ) - 1) srcX)
  let clampedSrcY : ℤ := max 0 (min ((e.canvasHpx : ℤ) - 1) srcY)
  (clampedSrcX, clampedSrcY)

/-- The heatmap solidity query, translated from `isSolidAtCanvasPoint` in
the game-loop module (part_001 lines 256-304): fail closed when the
heatmap is not ready or the sample fails, otherwise solid iff the sampled
alpha exceeds 128 (>50% opacity). -/
def isSolidAtCanvasPoint (e : HeatmapEnv) (canvasX canvasY : ℚ) : Bool :=
  if heatmapReady e then
    match e.alpha (sampledPoint e canvasX canvasY).1 (sampledPoint e canvasX canvasY).2 with
    | none => false
    | some a => decide (128 < a)
  else false

/-- The optional logical key names of a `SimpleAI` (`KeysMap` in
`simpleAi.ts`).  JS truthiness of a key name: present and nonempty. -/
structure KeysMap where
  left : Option String := none
  right : Option String := none
  up : Option String := none
  attack1 : Option String := none
  parry : Option String := none
deriving DecidableEq

/-- JS truthiness of an optional key name. -/
def keyTruthy : Option String → Bool
  | some s => decide (s ≠ "")
  | none => false

/-- Point update of an input map (`mergedInput[k] = v`). -/
def setKey (m : String → Bool) (k : String) (v : Bool) : String → Bool :=
  fun s => if s = k then v else m s

/-- `if (key) mergedInput[key] = v` for an optional key name. -/
def setIfTruthy (m : String → Bool) (k : Option String) (v : Bool) : String → Bool :=
  match k with
  | some s => if s = "" then m else setKey m s v
  | none => m

/-- Mutable controller state of `SimpleAI` (`simpleAi.ts`).  Fields that
only rate-limit console logging are omitted.  `hasBehavior` records whether
a registry behavior was installed; its per-tick advisory intent is passed
to `update` as data. -/
structure SimpleAI where
  lastJump : ℚ := 0
  attackCooldown : ℚ := 0
  parryCooldown : ℚ := 0
  keys : KeysMap := {}
  hasIsSolidAt : Bool := false
  canvasW : ℚ := 800
  canvasH : ℚ := 600
  patrolMinX : ℚ := 0
  patrolMaxX : ℚ := 800
  patrolDirection : ℤ := -1
  edgeLookahead : ℚ := 48
  forcedFlipAfter : ℚ := 2
  noGroundTimer : ℚ := 0
  hasBehavior : Bool := false
  aggroRange : ℚ := 300
  attackRange : ℚ := 90
  spawnX : Option ℚ := none
  spawnClamp : ℚ := 300
  simplePatrol : Bool := false
  patrolDistance : ℚ := 150
  patrolTargetX : Option ℚ := none
  returningToSpawn : Bool := false
  isAggro : Bool := false
deriving DecidableEq

/-- Line-of-sight probe, translated from `SimpleAI.isPlayerInSight`:
sample every 20 px along the segment between the two actors; any solid
sample blocks sight.  `solidAt` models the optional `this.isSolidAt`. -/
def SimpleAI.isPlayerInSight (solidAt : Option (ℤ → ℤ → Bool))
    (p1 p2 : Fighter) : Bool :=
  match solidAt with
  | none => true
  | some sA =>
    let npcX := p2.x
    let npcY := p2.y
    let playerX := p1.x
    let playerY := p1.y
    let distance := |playerX - npcX|
    let steps : ℕ := max 1 (⌊distance / 20⌋).toNat
    !(((List.range steps).drop 1).any fun i =>
      let t : ℚ := (i : ℚ) / (steps : ℚ)
      let sampleX := npcX + (playerX - npcX) * t
      let sampleY := npcY + (playerY - npcY) * t
      sA (⌊sampleX⌋) (⌊sampleY⌋))

/-- `disallowMoveBeyondSpawn` closure inside `SimpleAI.update`. -/
def SimpleAI.disallowMoveBeyondSpawn (st : SimpleAI) (p2 : Fighter) (dir : ℤ) : Bool :=
  match st.spawnX with
  | none => false
  | some sx =>
    if dir = 1 then decide (sx + st.spawnClamp ≤ p2.x)
    else decide (p2.x ≤ sx - st.spawnClamp)

/-- The edge-safety filter applied to a registry behavior's movement intent
(`simpleAi.ts` lines 258-285): block a direction beyond the spawn clamp,
and block a direction whose ground sample at the fixed lookahead distance
at foot height is not solid while the actor is grounded. -/
def SimpleAI.edgeFilterLR (st : SimpleAI) (solidAt : Option (ℤ → ℤ → Bool))
    (p2 : Fighter) (leftKey rightKey : String)
    (safeIntent : String → Bool) : String → Bool :=
  let footY : ℤ := ⌊p2.y + p2.h + 2⌋
  let s1 :=
    if safeIntent leftKey then
      if st.disallowMoveBeyondSpawn p2 (-1) then setKey safeIntent leftKey false
      else
        match solidAt with
        | some sA =>
          if p2.onGround then
            if sA (⌊p2.x + p2.w * (1/2) - st.edgeLookahead⌋) footY = false then
              setKey safeIntent leftKey false
            else safeIntent
          else safeIntent
        | none => safeIntent
    else safeIntent
  if s1 rightKey then
    if st.disallowMoveBeyondSpawn p2 1 then setKey s1 rightKey false
    else
      match solidAt with
      | some sA =>
        if p2.onGround then
          if sA (⌊p2.x + p2.w * (1/2) + st.edgeLookahead⌋) footY = false then
            setKey s1 rightKey false
          else s1
        else s1
      | none => s1
  else s1

/-- The enhanced patrol + aggro branch of `SimpleAI.update`
(`simpleAi.ts` lines 122-224), taken when `simplePatrol` is set and a
spawn x is known: reset own keys, then chase/attack the player when in
aggro range and line of sight, otherwise oscillate between the spawn
point and the patrol target.  Returns the updated controller state,
merged input, and the (here unmodified) controlled fighter. -/
def SimpleAI.updatePatrol (st : SimpleAI) (solidAt : Option (ℤ → ℤ → Bool))
    (m : String → Bool) (p2 p1 : Fighter) (sx : ℚ) :
    SimpleAI × (String → Bool) × Fighter :=
  let m0 := setIfTruthy m st.keys.left false
  let m0 := setIfTruthy m0 st.keys.right false
  let m0 := setIfTruthy m0 st.keys.up false
  let m0 := setIfTruthy m0 st.keys.attack1 false
  let m0 := setIfTruthy m0 st.keys.parry false
  let currentX := p2.x
  let playerX := p1.x
  let distanceToPlayer := |currentX - playerX|
  let playerInRange := decide (distanceToPlayer ≤ st.aggroRange)
  let playerInSight := SimpleAI.isPlayerInSight solidAt p1 p2
  if playerInRange && playerInSight then
    -- AGGRO MODE: chase and attack the player, then return early
    let st1 := { st with isAggro := true }
    let m1 :=
      if decide (currentX < playerX - 5) then setIfTruthy m0 st1.keys.right true
      else if decide (currentX > playerX + 5) then setIfTruthy m0 st1.keys.left true
      else m0
    if decide (distanceToPlayer ≤ st1.attackRange) && decide (st1.attackCooldown ≤ 0) then
      if keyTruthy st1.keys.attack1 then
        ({ st1 with attackCooldown := 1 }, setIfTruthy m1 st1.keys.attack1 true, p2)
      else (st1, m1, p2)
    else (st1, m1, p2)
  else
    -- PATROL MODE
    let st1 := { st with isAggro := false }
    let st2 :=
      match st1.patrolTargetX with
      | none =>
        { st1 with patrolTargetX := some (sx + st1.patrolDistance), returningToSpawn := false }
      | some _ => st1
    match st2.patrolTargetX with
    | some target =>
      let st3 :=
        if decide (|currentX - target| < 10) then
          if st2.returningToSpawn then
            { st2 with patrolTargetX := some (sx + st2.patrolDistance), returningToSpawn := false }
          else
            { st2 with patrolTargetX := some sx, returningToSpawn := true }
        else st2
      match st3.patrolTargetX with
      | some target2 =>
        let m1 :=
          if decide (currentX < target2 - 5) then setIfTruthy m0 st3.keys.right true
          else if decide (currentX > target2 + 5) then setIfTruthy m0 st3.keys.left true
          else m0
        (st3, m1, p2)
      | none => (st3, m0, p2)
    | none => (st2, m0, p2)

/-- The non-patrol path of `SimpleAI.update` (`simpleAi.ts` lines 228-387):
registry-behavior delegation through the edge-safety filter, cooldown
ticks, input reset, edge avoidance, threat-triggered parry (which mutates
the controlled fighter), heatmap-aware nudging, and chase/attack or
defensive-centering movement.  `behaviorIntent` is the advisory key→bool
map returned by `this.behavior.update(ctx, {})` this tick (used only when
`hasBehavior`), modelled as an association list with distinct keys. -/
def SimpleAI.updateMain (st : SimpleAI) (solidAt : Option (ℤ → ℤ → Bool))
    (behaviorIntent : List (String × Bool)) (dt : ℚ) (m : String → Bool)
    (p2 p1 : Fighter) (projectiles : List Proj) :
    SimpleAI × (String → Bool) × Fighter :=
  let m1 :=
    if st.hasBehavior then
      let leftKey :=
        match st.keys.left with
        | some s => if s = "" then ("left") else s
        | none => "left"
      let rightKey :=
        match st.keys.right with
        | some s => if s = "" then ("right") else s
        | none => "right"
      let safeFn : String → Bool := fun s =>
        match behaviorIntent.find? (fun p => p.1 = s) with
        | some p => p.2
        | none => false
      let filtered := st.edgeFilterLR solidAt p2 leftKey rightKey safeFn
      behaviorIntent.foldl (fun acc p => setKey acc p.1 (filtered p.1)) m
    else m
  let st1 :=
    { st with
      lastJump := st.lastJump + dt,
      attackCooldown := if st.attackCooldown > 0 then st.attackCooldown - dt else st.attackCooldown,
      parryCooldown := if st.parryCooldown > 0 then st.parryCooldown - dt else st.parryCooldown }
  let dx := p1.x - p2.x
  let dist := |dx|
  let m2 := setIfTruthy m1 st1.keys.left false
  let m2 := setIfTruthy m2 st1.keys.right false
  let m2 := setIfTruthy m2 st1.keys.up false
  let m2 := setIfTruthy m2 st1.keys.attack1 false
  let m2 := setIfTruthy m2 st1.keys.parry false
  let highDamage := decide (50 ≤ p2.damagePercent)
  let lowStocks := decide (p2.stocks ≤ 1)
  -- edge avoidance: `(p2.canvasW || p2.canvasWidth || this.canvasW || 800)`
  let canvasW1 := if p2.canvasW ≠ 0 then p2.canvasW else if st1.canvasW ≠ 0 then st1.canvasW else 800
  let m3 :=
    if decide (p2.x < 140) && keyTruthy st1.keys.right then setIfTruthy m2 st1.keys.right true
    else if decide (p2.x + p2.w > canvasW1 - 140) && keyTruthy st1.keys.left then
      setIfTruthy m2 st1.keys.left true
    else m2
  let threat := projectiles.any fun pr =>
    pr.alive && decide (pr.ownerTag ≠ p2.tag) && decide (|pr.x - p2.x| < 140)
  let oppAttacking := p1.attacking1 || p1.attacking2
  let fighterParryCooldown := p2.parryCooldown
  let parried :=
    if decide (fighterParryCooldown ≤ 0) then
      if threat && keyTruthy st1.keys.parry then
        (({ st1 with parryCooldown := 1/10 }),
         setIfTruthy m3 st1.keys.parry true,
         { p2 with
           parrying := true,
           parryTimer := (if p2.parryDurationDefault ≠ 0 then p2.parryDurationDefault else 1/4) * (6/10),
           parryConsumed := false,
           animState := "parry" })
      else if oppAttacking && decide (dist < 180) && keyTruthy st1.keys.parry then
        (({ st1 with parryCooldown := 1/10 }),
         setIfTruthy m3 st1.keys.parry true,
         { p2 with
           parrying := true,
           parryTimer := (if p2.parryDurationDefault ≠ 0 then p2.parryDurationDefault else 1/4) * (6/10),
           parryConsumed := false,
           animState := "parry" })
      else (st1, m3, p2)
    else (st1, m3, p2)
  let st2 := parried.1
  let m4 := parried.2.1
  let p2a := parried.2.2
  let m5 :=
    match solidAt with
    | some sA =>
      if keyTruthy st2.keys.left || keyTruthy st2.keys.right then
        let footY : ℤ := ⌊p2a.y + p2a.h + 2⌋
        let canStandAheadRight := sA (⌊p2a.x + p2a.w * (1/2) + 48⌋) footY
        let canStandAheadLeft := sA (⌊p2a.x + p2a.w * (1/2) - 48⌋) footY
        if p2a.onGround then
          if keyTruthy st2.keys.right && !canStandAheadRight && keyTruthy st2.keys.left then
            setIfTruthy m4 st2.keys.left true
          else if keyTruthy st2.keys.left && !canStandAheadLeft && keyTruthy st2.keys.right then
            setIfTruthy m4 st2.keys.right true
          else m4
        else m4
      else m4
    | none => m4
  if !highDamage && !lowStocks then
    if decide (dist > 250) then
      let m6 :=
        if keyTruthy st2.keys.right && decide (dx > 0) then setIfTruthy m5 st2.keys.right true
        else if keyTruthy st2.keys.left && decide (dx < 0) then setIfTruthy m5 st2.keys.left true
        else m5
      (st2, m6, p2a)
    else
      if decide (st2.attackCooldown ≤ 0) && keyTruthy st2.keys.attack1 then
        ({ st2 with attackCooldown := 8/10 }, setIfTruthy m5 st2.keys.attack1 true, p2a)
      else (st2, m5, p2a)
  else
    let canvasW2 := if p2a.canvasW ≠ 0 then p2a.canvasW else 800
    let centerX := (canvasW2 - p2a.w) * (1/2)
    let m6 :=
      if decide (p2a.x < centerX - 10) && keyTruthy st2.keys.right then
        setIfTruthy m5 st2.keys.right true
      else if decide (p2a.x > centerX + 10) && keyTruthy st2.keys.left then
        setIfTruthy m5 st2.keys.left true
      else m5
    (st2, m6, p2a)

/-- `SimpleAI.update(dt, mergedInput, p2, p1, projectiles)`: dispatch to the
patrol + aggro branch when `simplePatrol` is set and a spawn x is known,
otherwise run the behavior-delegation / fallback path.  Returns the updated
controller state, the merged input, and the controlled fighter (which the
parry logic may have mutated). -/
def SimpleAI.update (st : SimpleAI) (solidAt : Option (ℤ → ℤ → Bool))
    (behaviorIntent : List (String × Bool)) (dt : ℚ) (mergedInput : String → Bool)
    (p2 p1 : Fighter) (projectiles : List Proj) :
    SimpleAI × (String → Bool) × Fighter :=
  if st.simplePatrol then
    match st.spawnX with
    | some sx => st.updatePatrol solidAt mergedInput p2 p1 sx
    | none => st.updateMain solidAt behaviorIntent dt mergedInput p2 p1 projectiles
  else st.updateMain solidAt behaviorIntent dt mergedInput p2 p1 projectiles

/-- Arguments of one `receiveHit` call. -/
structure HitArgs where
  inc : ℚ
  baseKB : ℚ
  strength : ℚ
  angle : Option (ℚ × ℚ)
deriving DecidableEq

/-- Apply a sequence of `receiveHit` calls to a fighter. -/
def applyHits (f : Fighter) (hs : List HitArgs) : Fighter :=
  hs.foldl (fun g hit => g.receiveHit hit.inc hit.baseKB hit.strength hit.angle) f

/-- One incoming hit arriving at a fixed defender during the per-tick
combat-resolution pass: either a melee swing by an attacker, or a
projectile with its owner. -/
inductive HitEvent where
  | melee (attacker : Fighter) (singleplayer : Bool)
  | projectile (pr : Proj) (owner : Fighter)

/-- The defender after the resolution pass handles one incoming hit. -/
def applyHitEvent (d : Fighter) (e : HitEvent) : Fighter :=
  match e with
  | .melee a sp => (resolveMeleeHit a d sp).2
  | .projectile pr ow => (resolveProjectileHit pr ow d).2.2

/-- Whether handling this hit produced a negated/reflected (parry) outcome:
exactly the resolutions that newly consume the defender's parry. -/
def eventConsumesParry (d : Fighter) (e : HitEvent) : Bool :=
  (applyHitEvent d e).parryConsumed && !d.parryConsumed

/-- Number of parry (negated/reflected) outcomes along a sequence of
incoming hits resolved against the same defender. -/
def parriedCount (d : Fighter) : List HitEvent → ℕ
  | [] => 0
  | e :: rest =>
    (if eventConsumesParry d e then 1 else 0) + parriedCount (applyHitEvent d e) rest

/-- One modelled tick during a persisting attack overlap: the attacker's
attack1 input/timer block of `Fighter.update` (with no new attack1 press),
followed by the melee combat-resolution block.  Positions are held fixed
across the modelled ticks, matching a persisting hitbox/hurtbox overlap. -/
def meleeTick (dt : ℚ) (singleplayer : Bool) (p : Fighter × Fighter) :
    Fighter × Fighter :=
  resolveMeleeHit (p.1.attack1InputStep dt false) p.2 singleplayer

/-- How many of the five exclusive action conditions of the spec's
invariant hold: attacking (`attacking1 ∨ attacking2`), parrying, ranging
(`ranging1 ∨ ranging2`), hurt, flying. -/
def exclusiveFlagsCount (f : Fighter) : ℕ :=
  (if f.attacking1 || f.attacking2 then 1 else 0) +
  (if f.parrying then 1 else 0) +
  (if f.ranging1 || f.ranging2 then 1 else 0) +
  (if f.hurt then 1 else 0) +
  (if f.flying then 1 else 0)

/-- The spec's claimed exclusivity invariant: at most one exclusive action
condition, except that parry and hurt may coexist transiently during a
hit-freeze frame. -/
def actionExclusive (f : Fighter) : Prop :=
  exclusiveFlagsCount f ≤ 1 ∨
    (f.parrying = true ∧ f.hurt = true ∧ exclusiveFlagsCount f = 2 ∧ 0 < f.parryFreezeTimer)

instance (f : Fighter) : Decidable (actionExclusive f) := by
  unfold actionExclusive
  infer_instance

/-! ## Basic facts about `receiveHit` and `takeDamage` -/

lemma receiveHit_damagePercent (f : Fighter) (inc baseKB strength : ℚ)
    (angle : Option (ℚ × ℚ)) (hdef : f.state ≠ "defeat") :
    (f.receiveHit inc baseKB strength angle).damagePercent = f.damagePercent + inc := by
  by_cases h2 : f.damagePercent + inc < 30 <;> simp [Fighter.receiveHit, hdef, h2]

lemma receiveHit_damagePercent_mono (f : Fighter) (inc baseKB strength : ℚ)
    (angle : Option (ℚ × ℚ)) (hpos : 0 ≤ inc) :
    f.damagePercent ≤ (f.receiveHit inc baseKB strength angle).damagePercent := by
  by_cases h1 : f.state = "defeat" <;> by_cases h2 : f.damagePercent + inc < 30 <;>
    simp [Fighter.receiveHit, h1, h2] <;> linarith

lemma receiveHit_parryConsumed (f : Fighter) (inc baseKB strength : ℚ)
    (angle : Option (ℚ × ℚ)) :
    (f.receiveHit inc baseKB strength angle).parryConsumed = f.parryConsumed := by
  by_cases h1 : f.state = "defeat" <;> by_cases h2 : f.damagePercent + inc < 30 <;>
    simp [Fighter.receiveHit, h1, h2]

lemma receiveHit_actionFlags (f : Fighter) (inc baseKB strength : ℚ)
    (angle : Option (ℚ × ℚ)) :
    (f.receiveHit inc baseKB strength angle).attacking1 = f.attacking1 ∧
    (f.receiveHit inc baseKB strength angle).attacking2 = f.attacking2 ∧
    (f.receiveHit inc baseKB strength angle).parrying = f.parrying ∧
    (f.receiveHit inc baseKB strength angle).ranging1 = f.ranging1 ∧
    (f.receiveHit inc baseKB strength angle).ranging2 = f.ranging2 ∧
    (f.receiveHit inc baseKB strength angle).flying = f.flying := by
  by_cases h1 : f.state = "defeat" <;> by_cases h2 : f.damagePercent + inc < 30 <;>
    simp [Fighter.receiveHit, h1, h2]

lemma receiveHit_parryFreezeTimer (f : Fighter) (inc baseKB strength : ℚ)
    (angle : Option (ℚ × ℚ)) :
    (f.receiveHit inc baseKB strength angle).parryFreezeTimer = f.parryFreezeTimer := by
  by_cases h1 : f.state = "defeat" <;> by_cases h2 : f.damagePercent + inc < 30 <;>
    simp [Fighter.receiveHit, h1, h2]

lemma receiveHit_hurt (f : Fighter) (inc baseKB strength : ℚ)
    (angle : Option (ℚ × ℚ)) (hdef : f.state ≠ "defeat") :
    (f.receiveHit inc baseKB strength angle).hurt = true := by
  by_cases h2 : f.damagePercent + inc < 30 <;> simp [Fighter.receiveHit, hdef, h2]

lemma takeDamage_parryConsumed (f : Fighter) (amount : ℚ) :
    (f.takeDamage amount).parryConsumed = f.parryConsumed := by
  by_cases h1 : f.hp ≤ 0 ∨ f.state = "defeat" <;>
    by_cases h2 : max 0 (f.hp - amount) ≤ 0 <;> simp [Fighter.takeDamage, h1, h2]

lemma takeDamage_damagePercent (f : Fighter) (amount : ℚ) :
    (f.takeDamage amount).damagePercent = f.damagePercent := by
  by_cases h1 : f.hp ≤ 0 ∨ f.state = "defeat" <;>
    by_cases h2 : max 0 (f.hp - amount) ≤ 0 <;> simp [Fighter.takeDamage, h1, h2]

/-! ## C1: launch regime split of `receiveHit` -/

/-- A fighter already in the terminal `defeat` state, standing on the
ground with an accumulated damage percent of 40. -/
def defeatedGroundedFighter : Fighter :=
  { state := "defeat", damagePercent := 40, onGround := true }

/-- C1, counterexample: `receiveHit` on an already-defeated fighter returns
immediately, so the resulting damage percent is ≥ 30 and yet the call
neither clears `onGround` nor sets `launchedFromHit` — the claim's
universal quantification over every call to `receiveHit` fails at this
input. -/
theorem c1_defeat_counterexample :
    30 ≤ (defeatedGroundedFighter.receiveHit 0 120 1 none).damagePercent ∧
    (defeatedGroundedFighter.receiveHit 0 120 1 none).onGround = true ∧
    (defeatedGroundedFighter.receiveHit 0 120 1 none).launchedFromHit = false := by
  decide

/-- C1 (amended): for every `receiveHit` call on a fighter that is not
already defeated, a resulting damage percent ≥ 30 clears `onGround` and
sets `launchedFromHit`, while a resulting damage percent < 30 leaves both
flags unchanged and applies only a velocity impulse of
`cos·KB·0.12·strength·0.2` horizontally and `-sin·KB·0.12·strength·0.2`
vertically, the short stun `max stunTimer (0.25·strength)`, and the hurt
state with its 0.3 s timer. -/
theorem c1_receiveHit_regime_split (f : Fighter) (inc baseKB strength : ℚ)
    (angle : Option (ℚ × ℚ)) (hdef : f.state ≠ "defeat") :
    (30 ≤ (f.receiveHit inc baseKB strength angle).damagePercent →
      (f.receiveHit inc baseKB strength angle).onGround = false ∧
      (f.receiveHit inc baseKB strength angle).launchedFromHit = true) ∧
    ((f.receiveHit inc baseKB strength angle).damagePercent < 30 →
      (f.receiveHit inc baseKB strength angle).onGround = f.onGround ∧
      (f.receiveHit inc baseKB strength angle).launchedFromHit = f.launchedFromHit ∧
      (f.receiveHit inc baseKB strength angle).hurt = true ∧
      (f.receiveHit inc baseKB strength angle).hurtTimer = 3/10 ∧
      (f.receiveHit inc baseKB strength angle).stunTimer = max f.stunTimer (25/100 * strength) ∧
      ∀ c s : ℚ, angle = some (c, s) →
        (f.receiveHit inc baseKB strength angle).vx =
          f.vx + c * (baseKB + (f.damagePercent + inc) * (6 * strength) +
            (f.damagePercent + inc) * (f.damagePercent + inc) /
              (30 + (f.damagePercent + inc))) * (12/100 * strength) * (1/5) ∧
        (f.receiveHit inc baseKB strength angle).vy =
          f.vy + -(s * (baseKB + (f.damagePercent + inc) * (6 * strength) +
            (f.damagePercent + inc) * (f.damagePercent + inc) /
              (30 + (f.damagePercent + inc))) * (12/100 * strength) * (1/5))) := by
  have hdp := receiveHit_damagePercent f inc baseKB strength angle hdef
  by_cases h2 : f.damagePercent + inc < 30
  · refine ⟨fun h30 => absurd (hdp ▸ h30) (by linarith), fun _ => ?_⟩
    refine ⟨by simp [Fighter.receiveHit, hdef, h2], by simp [Fighter.receiveHit, hdef, h2],
      by simp [Fighter.receiveHit, hdef, h2], by simp [Fighter.receiveHit, hdef, h2],
      by simp [Fighter.receiveHit, hdef, h2], ?_⟩
    intro c s hang
    subst hang
    exact ⟨by simp [Fighter.receiveHit, hdef, h2], by simp [Fighter.receiveHit, hdef, h2]⟩
  · refine ⟨fun _ => ⟨by simp [Fighter.receiveHit, hdef, h2], by simp [Fighter.receiveHit, hdef, h2]⟩,
      fun h30 => absurd (hdp ▸ h30) (by push_neg at h2 ⊢; linarith)⟩

/-- A grounded, undefeated fighter at 25% damage. -/
def lowPercentFighter : Fighter := { damagePercent := 25, onGround := true }

/-- A grounded, undefeated fighter at 50% damage. -/
def highPercentFighter : Fighter := { damagePercent := 50, onGround := true }

/-- C1 witness: the amended theorem applied at concrete inputs on both
sides of the 30% threshold. -/
theorem c1_witness :
    ((highPercentFighter.receiveHit 10 120 1 (some (-1, 0))).onGround = false ∧
      (highPercentFighter.receiveHit 10 120 1 (some (-1, 0))).launchedFromHit = true) ∧
    ((lowPercentFighter.receiveHit 2 120 1 (some (-1, 0))).onGround = lowPercentFighter.onGround ∧
      (lowPercentFighter.receiveHit 2 120 1 (some (-1, 0))).launchedFromHit =
        lowPercentFighter.launchedFromHit ∧
      (lowPercentFighter.receiveHit 2 120 1 (some (-1, 0))).hurt = true ∧
      (lowPercentFighter.receiveHit 2 120 1 (some (-1, 0))).hurtTimer = 3/10 ∧
      (lowPercentFighter.receiveHit 2 120 1 (some (-1, 0))).stunTimer =
        max lowPercentFighter.stunTimer (25/100 * 1) ∧
      ∀ c s : ℚ, (some ((-1 : ℚ), (0 : ℚ)) : Option (ℚ × ℚ)) = some (c, s) →
        (lowPercentFighter.receiveHit 2 120 1 (some (-1, 0))).vx =
          lowPercentFighter.vx + c * (120 + (lowPercentFighter.damagePercent + 2) * (6 * 1) +
            (lowPercentFighter.damagePercent + 2) * (lowPercentFighter.damagePercent + 2) /
              (30 + (lowPercentFighter.damagePercent + 2))) * (12/100 * 1) * (1/5) ∧
        (lowPercentFighter.receiveHit 2 120 1 (some (-1, 0))).vy =
          lowPercentFighter.vy + -(s * (120 + (lowPercentFighter.damagePercent + 2) * (6 * 1) +
            (lowPercentFighter.damagePercent + 2) * (lowPercentFighter.damagePercent + 2) /
              (30 + (lowPercentFighter.damagePercent + 2))) * (12/100 * 1) * (1/5))) :=
  ⟨(c1_receiveHit_regime_split highPercentFighter 10 120 1 (some (-1, 0)) (by decide)).1
      (by rw [receiveHit_damagePercent highPercentFighter 10 120 1 (some (-1, 0)) (by decide)]
          norm_num [highPercentFighter]),
   (c1_receiveHit_regime_split lowPercentFighter 2 120 1 (some (-1, 0)) (by decide)).2
      (by rw [receiveHit_damagePercent lowPercentFighter 2 120 1 (some (-1, 0)) (by decide)]
          norm_num [lowPercentFighter])⟩

/-! ## C5: the knockback formula -/

/-- C5: the knockback magnitude computed by `receiveHit` is
`KB = baseKB + dp·scale + dp²/(k + dp)` with `scale = 6·strength` and the
fixed softening constant `k = 30`, where `dp` is the damage percent after
accumulating the hit's percent increase.  The magnitude is observed
through the applied velocity impulse of the sub-30% regime (the ≥ 30%
launch regime computes `KB` but applies a fixed-scale launch instead). -/
theorem c5_knockback_formula (f : Fighter) (inc baseKB strength c s : ℚ)
    (hdef : f.state ≠ "defeat") (hlow : f.damagePercent + inc < 30) :
    (f.receiveHit inc baseKB strength (some (c, s))).vx =
      f.vx + c * (baseKB + (f.damagePercent + inc) * (6 * strength) +
        (f.damagePercent + inc) * (f.damagePercent + inc) /
          (30 + (f.damagePercent + inc))) * (12/100 * strength) * (1/5) ∧
    (f.receiveHit inc baseKB strength (some (c, s))).vy =
      f.vy + -(s * (baseKB + (f.damagePercent + inc) * (6 * strength) +
        (f.damagePercent + inc) * (f.damagePercent + inc) /
          (30 + (f.damagePercent + inc))) * (12/100 * strength) * (1/5)) := by
  exact ⟨by simp [Fighter.receiveHit, hdef, hlow], by simp [Fighter.receiveHit, hdef, hlow]⟩

/-- C5 witness: the formula applied at 25% + 2% with a leftward hit. -/
theorem c5_witness :
    (lowPercentFighter.receiveHit 2 120 1 (some (-1, 0))).vx =
      lowPercentFighter.vx + (-1) * (120 + (lowPercentFighter.damagePercent + 2) * (6 * 1) +
        (lowPercentFighter.damagePercent + 2) * (lowPercentFighter.damagePercent + 2) /
          (30 + (lowPercentFighter.damagePercent + 2))) * (12/100 * 1) * (1/5) ∧
    (lowPercentFighter.receiveHit 2 120 1 (some (-1, 0))).vy =
      lowPercentFighter.vy + -((0 : ℚ) * (120 + (lowPercentFighter.damagePercent + 2) * (6 * 1) +
        (lowPercentFighter.damagePercent + 2) * (lowPercentFighter.damagePercent + 2) /
          (30 + (lowPercentFighter.damagePercent + 2))) * (12/100 * 1) * (1/5)) :=
  c5_knockback_formula lowPercentFighter 2 120 1 (-1) 0 (by decide)
    (by norm_num [lowPercentFighter])

/-! ## C4: damage percent is non-decreasing -/

/-- C4: over every sequence of `receiveHit` calls with non-negative percent
increases, the damage percent is non-decreasing (no `receiveHit` ever
lowers or resets it). -/
theorem c4_damagePercent_monotone (f : Fighter) (hs : List HitArgs)
    (hpos : ∀ h ∈ hs, 0 ≤ h.inc) :
    f.damagePercent ≤ (applyHits f hs).damagePercent := by
  induction hs generalizing f with
  | nil => simp [applyHits]
  | cons hit rest ih =>
    have h1 := receiveHit_damagePercent_mono f hit.inc hit.baseKB hit.strength hit.angle
      (hpos hit (List.mem_cons_self hit rest))
    have h2 := ih (f.receiveHit hit.inc hit.baseKB hit.strength hit.angle)
      (fun h hh => hpos h (List.mem_cons_of_mem hit hh))
    rw [show applyHits f (hit :: rest) =
      applyHits (f.receiveHit hit.inc hit.baseKB hit.strength hit.angle) rest from rfl]
    exact le_trans h1 h2

/-- C4 witness: a concrete three-hit sequence, crossing the launch
threshold on the way. -/
theorem c4_witness :
    lowPercentFighter.damagePercent ≤
      (applyHits lowPercentFighter
        [⟨10, 120, 1, none⟩, ⟨35, 140, 6/10, some (1, 0)⟩, ⟨0, 90, 9/10, some (-1, 0)⟩]).damagePercent :=
  c4_damagePercent_monotone lowPercentFighter
    [⟨10, 120, 1, none⟩, ⟨35, 140, 6/10, some (1, 0)⟩, ⟨0, 90, 9/10, some (-1, 0)⟩]
    (by decide)

/-! ## C10: hits on a defeated fighter are no-ops -/

/-- C10: `receiveHit` is a no-op in the `defeat` state, and `takeDamage`
is a no-op when `hp ≤ 0` or the state is `defeat`: the entire fighter
state (hp, damage percent, velocity, timers, flags) is returned
unchanged. -/
theorem c10_defeated_noop (f : Fighter) (inc baseKB strength amount : ℚ)
    (angle : Option (ℚ × ℚ)) :
    (f.state = "defeat" → f.receiveHit inc baseKB strength angle = f) ∧
    (f.hp ≤ 0 ∨ f.state = "defeat" → f.takeDamage amount = f) := by
  constructor
  · intro h
    simp [Fighter.receiveHit, h]
  · intro h
    simp only [Fighter.takeDamage, if_pos h]

/-- C10 witness: both no-ops at a concrete defeated fighter. -/
theorem c10_witness :
    defeatedGroundedFighter.receiveHit 5 120 1 none = defeatedGroundedFighter ∧
    defeatedGroundedFighter.takeDamage 1 = defeatedGroundedFighter :=
  ⟨(c10_defeated_noop defeatedGroundedFighter 5 120 1 1 none).1 rfl,
   (c10_defeated_noop defeatedGroundedFighter 5 120 1 1 none).2 (Or.inr rfl)⟩

/-! ## Facts about the melee resolution block -/

lemma attack1InputStep_noPress_attack1Launched (f : Fighter) (dt : ℚ) :
    (f.attack1InputStep dt false).attack1Launched = f.attack1Launched := by
  by_cases h : f.attacking1 <;> simp [Fighter.attack1InputStep, h]

lemma attack1InputStep_noPress_attacking2 (f : Fighter) (dt : ℚ) :
    (f.attack1InputStep dt false).attacking2 = f.attacking2 := by
  by_cases h : f.attacking1 <;> simp [Fighter.attack1InputStep, h]

lemma attack1InputStep_noPress_active (f : Fighter) (dt : ℚ)
    (h : f.attacking1 = true) (hdt : dt < f.attack1Timer) :
    f.attack1InputStep dt false =
      { f with attack1Timer := f.attack1Timer - dt, attacking1 := true } := by
  have ht : ¬(f.attack1Timer - dt ≤ 0) := by linarith
  simp [Fighter.attack1InputStep, h, ht]

/-- Once the attack instance's launch flag is set (and no attack2 is
active), the melee resolution block leaves both fighters untouched. -/
lemma resolveMelee_noop (a d : Fighter) (sp : Bool)
    (hl : a.attack1Launched = true) (h2 : a.attacking2 = false) :
    resolveMeleeHit a d sp = (a, d) := by
  unfold resolveMeleeHit
  cases hbox : a.hitbox with
  | none => rfl
  | some h1 =>
    by_cases hov : aabb h1 d.rect = true
    · by_cases ha1 : a.attacking1 = true
      · simp [hov, ha1, hl]
      · simp only [Bool.not_eq_true] at ha1
        simp [hov, ha1, h2]
    · simp only [Bool.not_eq_true] at hov
      simp [hov]

/-- A fresh (unlaunched) attack1 overlap against a non-parrying defender:
the launch flag is set and the defender receives the fixed melee hit. -/
lemma resolveMelee_fresh_hit (a d : Fighter) (hb : Rect)
    (ha1 : a.attacking1 = true) (hl : a.attack1Launched = false)
    (hbox : a.hitbox = some hb) (hov : aabb hb d.rect = true)
    (hpar : d.parrying = false) :
    resolveMeleeHit a d false =
      ({ a with attack1Launched := true },
       d.receiveHit 30 140 (6/10) (some (if a.x < d.x then ⟨-1, 0⟩ else ⟨1, 0⟩))) := by
  unfold resolveMeleeHit
  rw [hbox]
  simp [hov, ha1, hl, hpar]

/-- A fresh attack1 overlap against a parrying defender with an unconsumed
parry (and a purely melee attacker): the parry consumes, the defender gets
the 0.15 s freeze timer, and the attacker is hit by the reflected
`receiveHit(20, 120, 1.0)`. -/
lemma resolveMelee_parry_branch (a d : Fighter) (hb : Rect) (sp : Bool)
    (ha1 : a.attacking1 = true) (hl : a.attack1Launched = false)
    (hbox : a.hitbox = some hb) (hov : aabb hb d.rect = true)
    (hpar : d.parrying = true) (hcon : d.parryConsumed = false)
    (hr1 : a.ranging1 = false) (hr2 : a.ranging2 = false) :
    resolveMeleeHit a d sp =
      (({ a with attack1Launched := true }).receiveHit 20 120 1
         (some (if d.x < a.x then ⟨-1, 0⟩ else ⟨1, 0⟩)),
       { d with parryConsumed := true, parryFreezeTimer := 15/100 }) := by
  unfold resolveMeleeHit
  rw [hbox]
  simp [hov, ha1, hl, hpar, hcon, hr1, hr2]

/-! ## C2: at most one resolution per attack instance -/

/-- C2: during one attack1 instance whose hitbox overlaps the defender's
hurtbox over any number of consecutive ticks, the defender's damage
percent increases by the fixed melee amount (+30) exactly once: after the
first tick the per-instance launch flag blocks every further resolution,
so the total increase after `n ≥ 1` ticks is exactly 30. -/
theorem c2_melee_damage_once (a d : Fighter) (hb : Rect) (dt : ℚ) (n : ℕ)
    (ha1 : a.attacking1 = true) (ha2 : a.attacking2 = false)
    (hl : a.attack1Launched = false) (hbox : a.hitbox = some hb)
    (hov : aabb hb d.rect = true) (hpar : d.parrying = false)
    (hdef : d.state ≠ "defeat") (hdt : dt < a.attack1Timer) (hn : 1 ≤ n) :
    ((meleeTick dt false)^[n] (a, d)).2.damagePercent = d.damagePercent + 30 := by
  -- the state after the first tick
  set a1 : Fighter := { a with attack1Timer := a.attack1Timer - dt, attacking1 := true } with ha1def
  have hstep : meleeTick dt false (a, d) =
      ({ a1 with attack1Launched := true },
       d.receiveHit 30 140 (6/10) (some (if a1.x < d.x then ⟨-1, 0⟩ else ⟨1, 0⟩))) := by
    show resolveMeleeHit (a.attack1InputStep dt false) d false = _
    rw [attack1InputStep_noPress_active a dt ha1 hdt]
    exact resolveMelee_fresh_hit a1 d hb rfl hl hbox hov hpar
  -- the invariant: once launched, later ticks leave the defender fixed
  have hfix : ∀ (m : ℕ) (p : Fighter × Fighter),
      p.1.attack1Launched = true → p.1.attacking2 = false →
      ((meleeTick dt false)^[m] p).2 = p.2 := by
    intro m
    induction m with
    | zero => intro p _ _; rfl
    | succ k ih =>
      intro p hpl hp2
      rw [Function.iterate_succ_apply]
      have hstep2 : meleeTick dt false p = (p.1.attack1InputStep dt false, p.2) := by
        show resolveMeleeHit (p.1.attack1InputStep dt false) p.2 false = _
        rw [resolveMelee_noop (p.1.attack1InputStep dt false) p.2 false
          (by rw [attack1InputStep_noPress_attack1Launched]; exact hpl)
          (by rw [attack1InputStep_noPress_attacking2]; exact hp2)]
      rw [hstep2]
      exact ih (p.1.attack1InputStep dt false, p.2)
        (by rw [attack1InputStep_noPress_attack1Launched]; exact hpl)
        (by rw [attack1InputStep_noPress_attacking2]; exact hp2)
  obtain ⟨m, rfl⟩ : ∃ m, n = m + 1 := ⟨n - 1, by omega⟩
  rw [Function.iterate_succ_apply, hstep, hfix m _ rfl ha2]
  exact receiveHit_damagePercent d 30 140 (6/10) _ hdef

/-- An attacker mid-attack1 (fresh instance) overlapping the defender. -/
def meleeAttacker : Fighter :=
  { x := 100, y := 0, state := "attack1", attacking1 := true, attack1Timer := 35/100 }

/-- A plain grounded defender overlapping `meleeAttacker`'s hitbox. -/
def meleeDefender : Fighter := { x := 300, y := 0 }

/-- C2 witness: three consecutive overlap ticks of one attack1 instance
yield exactly one +30 on the defender. -/
theorem c2_witness :
    ((meleeTick (1/100) false)^[3] (meleeAttacker, meleeDefender)).2.damagePercent =
      meleeDefender.damagePercent + 30 :=
  c2_melee_damage_once meleeAttacker meleeDefender ⟨346, 604/5, 60, 40⟩ (1/100) 3
    rfl rfl rfl (by norm_num [Fighter.hitbox, meleeAttacker])
    (by norm_num [aabb, Fighter.rect, meleeDefender]) rfl (by decide)
    (by norm_num [meleeAttacker]) (by norm_num)

/-! ## C3: a parry neutralizes at most one hit -/

lemma applyHitEvent_parryConsumed_mono (d : Fighter) (e : HitEvent)
    (h : d.parryConsumed = true) : (applyHitEvent d e).parryConsumed = true := by
  cases e with
  | melee a sp =>
    show (resolveMeleeHit a d sp).2.parryConsumed = true
    unfold resolveMeleeHit
    cases a.hitbox with
    | none => exact h
    | some h1 =>
      split_ifs <;>
          simp_all [receiveHit_parryConsumed, takeDamage_parryConsumed] <;>
        split_ifs <;>
          simp_all [receiveHit_parryConsumed, takeDamage_parryConsumed]
  | projectile pr ow =>
    show (resolveProjectileHit pr ow d).2.2.parryConsumed = true
    unfold resolveProjectileHit
    split_ifs <;>
      simp_all [receiveHit_parryConsumed, takeDamage_parryConsumed]

lemma parriedCount_zero_of_consumed (d : Fighter) (es : List HitEvent)
    (h : d.parryConsumed = true) : parriedCount d es = 0 := by
  induction es generalizing d with
  | nil => rfl
  | cons e rest ih =>
    simp [parriedCount, eventConsumesParry, h,
      ih (applyHitEvent d e) (applyHitEvent_parryConsumed_mono d e h)]

/-- C3: (i) along any sequence of incoming hits (melee or projectile)
resolved against the same defender, at most one resolution produces a
negated/reflected (parry) outcome — once a hit consumes the parry, the
`parryConsumed` flag is never cleared by the resolution pass; and (ii) a
melee hit arriving while the parry state is still active but already
consumed is resolved as a normal hit, increasing the defender's damage
percent by the fixed +30. -/
theorem c3_parry_single_use :
    (∀ (d : Fighter) (es : List HitEvent), parriedCount d es ≤ 1) ∧
    (∀ (a d : Fighter) (hb : Rect),
      d.parryConsumed = true → d.parrying = true → d.state ≠ "defeat" →
      a.attacking1 = true → a.attack1Launched = false →
      a.hitbox = some hb → aabb hb d.rect = true →
      (resolveMeleeHit a d false).2.damagePercent = d.damagePercent + 30) := by
  constructor
  · intro d es
    induction es generalizing d with
    | nil => simp [parriedCount]
    | cons e rest ih =>
      by_cases hc : eventConsumesParry d e = true
      · have hcons : (applyHitEvent d e).parryConsumed = true := by
          simp only [eventConsumesParry, Bool.and_eq_true] at hc
          exact hc.1
        simp [parriedCount, hc, parriedCount_zero_of_consumed _ rest hcons]
      · simp only [Bool.not_eq_true] at hc
        simpa [parriedCount, hc] using ih (applyHitEvent d e)
  · intro a d hb hcon hpar hdef ha1 hl hbox hov
    unfold resolveMeleeHit
    rw [hbox]
    simp only [hov, ha1, hl, hcon, hpar]
    simp [receiveHit_damagePercent d 30 140 (6/10) _ hdef]

/-- A defender whose active parry was already consumed by a first hit. -/
def consumedParryDefender : Fighter :=
  { x := 300, y := 0, state := "parry", parrying := true, parryConsumed := true }

/-- C3 witness: (i) instantiated on a two-hit sequence against a parrying
defender, and (ii) a second melee hit on an already-consumed parry deals
the normal +30. -/
theorem c3_witness :
    parriedCount consumedParryDefender
      [.melee meleeAttacker false, .melee meleeAttacker false] ≤ 1 ∧
    (resolveMeleeHit meleeAttacker consumedParryDefender false).2.damagePercent =
      consumedParryDefender.damagePercent + 30 :=
  ⟨c3_parry_single_use.1 consumedParryDefender
      [.melee meleeAttacker false, .melee meleeAttacker false],
   c3_parry_single_use.2 meleeAttacker consumedParryDefender ⟨346, 604/5, 60, 40⟩
      rfl rfl (by decide) rfl rfl
      (by norm_num [Fighter.hitbox, meleeAttacker])
      (by norm_num [aabb, Fighter.rect, consumedParryDefender])⟩

/-! ## C6: parry resolution effects -/

/-- A defender in an active, unconsumed parry, overlapping
`meleeAttacker`'s hitbox. -/
def parryingDefender : Fighter := { x := 300, y := 0, state := "parry", parrying := true }

/-- C6, counterexample: on a successful melee parry the 0.15 s freeze
timer is set on the parrying defender only; the attacker's
`parryFreezeTimer` stays 0, so it is not the case that both combatants
receive the ~0.15 s hit-freeze. -/
theorem c6_counterexample :
    (resolveMeleeHit meleeAttacker parryingDefender false).2.parryConsumed = true ∧
    (resolveMeleeHit meleeAttacker parryingDefender false).2.parryFreezeTimer = 15/100 ∧
    (resolveMeleeHit meleeAttacker parryingDefender false).1.parryFreezeTimer = 0 := by
  rw [resolveMelee_parry_branch meleeAttacker parryingDefender ⟨346, 604/5, 60, 40⟩ false
    rfl rfl (by norm_num [Fighter.hitbox, meleeAttacker])
    (by norm_num [aabb, Fighter.rect, parryingDefender]) rfl rfl rfl rfl]
  refine ⟨rfl, rfl, ?_⟩
  rw [receiveHit_parryFreezeTimer]
  rfl

/-- C6 (amended): when the defender is in an active, unconsumed parry on
the tick a melee attack first overlaps, the defender's damage percent and
hp are unchanged (zero damage), the defender's parry is consumed with the
0.15 s freeze timer, and the attacker receives the reflected
`receiveHit(20, 120, 1.0)` — but the 0.15 s freeze timer is set on the
parrying defender only, not on the attacker.  A parried projectile is
negated outright: the defender only gains the consumed-parry flag and
freeze timer, the projectile dies, and its owner is stunned for 1.2 s. -/
theorem c6_parry_resolution (a d : Fighter) (hb : Rect) (sp : Bool)
    (ha1 : a.attacking1 = true) (hl : a.attack1Launched = false)
    (hbox : a.hitbox = some hb) (hov : aabb hb d.rect = true)
    (hpar : d.parrying = true) (hcon : d.parryConsumed = false)
    (hr1 : a.ranging1 = false) (hr2 : a.ranging2 = false) :
    (resolveMeleeHit a d sp).2 =
      { d with parryConsumed := true, parryFreezeTimer := 15/100 } ∧
    (resolveMeleeHit a d sp).1 =
      ({ a with attack1Launched := true }).receiveHit 20 120 1
        (some (if d.x < a.x then ⟨-1, 0⟩ else ⟨1, 0⟩)) ∧
    (resolveMeleeHit a d sp).1.parryFreezeTimer = a.parryFreezeTimer ∧
    (∀ (pr : Proj) (ow : Fighter),
      pr.alive = true → pr.ownerTag ≠ d.tag → aabb pr.rect d.rect = true →
      (resolveProjectileHit pr ow d).2.2 =
        { d with parryConsumed := true, parryFreezeTimer := 15/100 } ∧
      (resolveProjectileHit pr ow d).2.1 = { ow with stunTimer := 12/10 } ∧
      (resolveProjectileHit pr ow d).1.alive = false) := by
  have hmelee := resolveMelee_parry_branch a d hb sp ha1 hl hbox hov hpar hcon hr1 hr2
  refine ⟨by rw [hmelee], by rw [hmelee], ?_, ?_⟩
  · rw [hmelee, receiveHit_parryFreezeTimer]
  · intro pr ow hal hno hov2
    unfold resolveProjectileHit
    simp [hal, hno, hov2, hpar, hcon]

/-- C6 witness: the amended theorem at the concrete parry scenario,
including a concrete parried projectile. -/
theorem c6_witness :
    (resolveMeleeHit meleeAttacker parryingDefender false).2 =
      { parryingDefender with parryConsumed := true, parryFreezeTimer := 15/100 } ∧
    (resolveMeleeHit meleeAttacker parryingDefender false).1 =
      ({ meleeAttacker with attack1Launched := true }).receiveHit 20 120 1
        (some (if parryingDefender.x < meleeAttacker.x then ⟨-1, 0⟩ else ⟨1, 0⟩)) ∧
    (resolveMeleeHit meleeAttacker parryingDefender false).1.parryFreezeTimer =
      meleeAttacker.parryFreezeTimer ∧
    (∀ (pr : Proj) (ow : Fighter),
      pr.alive = true → pr.ownerTag ≠ parryingDefender.tag →
      aabb pr.rect parryingDefender.rect = true →
      (resolveProjectileHit pr ow parryingDefender).2.2 =
        { parryingDefender with parryConsumed := true, parryFreezeTimer := 15/100 } ∧
      (resolveProjectileHit pr ow parryingDefender).2.1 = { ow with stunTimer := 12/10 } ∧
      (resolveProjectileHit pr ow parryingDefender).1.alive = false) :=
  c6_parry_resolution meleeAttacker parryingDefender ⟨346, 604/5, 60, 40⟩ false
    rfl rfl (by norm_num [Fighter.hitbox, meleeAttacker])
    (by norm_num [aabb, Fighter.rect, parryingDefender]) rfl rfl rfl rfl

/-! ## C9: the exclusive-action invariant -/

/-- C9, counterexample: from a pre-state where both fighters satisfy the
claimed exclusivity invariant (one attacking, one parrying), the melee
resolution step's reflected parry hit leaves the attacker with
`attacking1` and `hurt` both set and no hit-freeze of its own — two
exclusive action conditions outside the allowed parry∧hurt freeze-frame
exception, so the invariant is not preserved by the program's own combat
step. -/
theorem c9_counterexample :
    actionExclusive meleeAttacker ∧ actionExclusive parryingDefender ∧
    ¬ actionExclusive ((resolveMeleeHit meleeAttacker parryingDefender false).1) := by
  refine ⟨by decide, by decide, ?_⟩
  rw [resolveMelee_parry_branch meleeAttacker parryingDefender ⟨346, 604/5, 60, 40⟩ false
    rfl rfl (by norm_num [Fighter.hitbox, meleeAttacker])
    (by norm_num [aabb, Fighter.rect, parryingDefender]) rfl rfl rfl rfl]
  have hst : ("attack1" : String) ≠ "defeat" := by decide
  norm_num [Fighter.receiveHit, meleeAttacker, parryingDefender, actionExclusive,
    exclusiveFlagsCount, hst]

/-- C9 (amended): `receiveHit` never changes the attacking, parrying,
ranging or flying flags, and (when the target is not already defeated)
always sets `hurt`; consequently `hurt` can coexist with an active attack
or ranged action after a hit, and the exclusivity of the claim only holds
for the flags that `receiveHit` leaves untouched. -/
theorem c9_receiveHit_flags (f : Fighter) (inc baseKB strength : ℚ)
    (angle : Option (ℚ × ℚ)) :
    (f.receiveHit inc baseKB strength angle).attacking1 = f.attacking1 ∧
    (f.receiveHit inc baseKB strength angle).attacking2 = f.attacking2 ∧
    (f.receiveHit inc baseKB strength angle).parrying = f.parrying ∧
    (f.receiveHit inc baseKB strength angle).ranging1 = f.ranging1 ∧
    (f.receiveHit inc baseKB strength angle).ranging2 = f.ranging2 ∧
    (f.receiveHit inc baseKB strength angle).flying = f.flying ∧
    (f.state ≠ "defeat" → (f.receiveHit inc baseKB strength angle).hurt = true) := by
  have h := receiveHit_actionFlags f inc baseKB strength angle
  exact ⟨h.1, h.2.1, h.2.2.1, h.2.2.2.1, h.2.2.2.2.1, h.2.2.2.2.2,
    fun hdef => receiveHit_hurt f inc baseKB strength angle hdef⟩

/-- C9 witness: the amended theorem at a concrete attacking fighter. -/
theorem c9_witness :
    (meleeAttacker.receiveHit 20 120 1 none).attacking1 = meleeAttacker.attacking1 ∧
    (meleeAttacker.receiveHit 20 120 1 none).attacking2 = meleeAttacker.attacking2 ∧
    (meleeAttacker.receiveHit 20 120 1 none).parrying = meleeAttacker.parrying ∧
    (meleeAttacker.receiveHit 20 120 1 none).ranging1 = meleeAttacker.ranging1 ∧
    (meleeAttacker.receiveHit 20 120 1 none).ranging2 = meleeAttacker.ranging2 ∧
    (meleeAttacker.receiveHit 20 120 1 none).flying = meleeAttacker.flying ∧
    (meleeAttacker.receiveHit 20 120 1 none).hurt = true :=
  have h := c9_receiveHit_flags meleeAttacker 20 120 1 none
  ⟨h.1, h.2.1, h.2.2.1, h.2.2.2.1, h.2.2.2.2.1, h.2.2.2.2.2.1,
    h.2.2.2.2.2.2 (by decide)⟩

/-! ## C7: the solidity query is total and fails closed -/

/-- C7: `isSolidAtCanvasPoint` is a total boolean function that fails
closed: (i) when the heatmap is not ready (missing context/canvas/image or
zero-width buffer) it returns `false`; (ii) when the pixel sample fails it
returns `false`; (iii) for every input — including arbitrarily
out-of-range coordinates — the sampled source pixel is clamped into the
valid image bounds; and (iv) it returns `true` only when an actual sample
succeeded with alpha above the 50% opacity threshold. -/
theorem c7_isSolid_total_fail_closed (e : HeatmapEnv) (x y : ℚ) :
    (heatmapReady e = false → isSolidAtCanvasPoint e x y = false) ∧
    (e.alpha (sampledPoint e x y).1 (sampledPoint e x y).2 = none →
      isSolidAtCanvasPoint e x y = false) ∧
    (0 < e.canvasWpx → 0 ≤ (sampledPoint e x y).1 ∧ (sampledPoint e x y).1 < e.canvasWpx) ∧
    (0 < e.canvasHpx → 0 ≤ (sampledPoint e x y).2 ∧ (sampledPoint e x y).2 < e.canvasHpx) ∧
    (isSolidAtCanvasPoint e x y = true →
      heatmapReady e = true ∧
      ∃ a, e.alpha (sampledPoint e x y).1 (sampledPoint e x y).2 = some a ∧ 128 < a) := by
  refine ⟨?_, ?_, ?_, ?_, ?_⟩
  · intro h
    simp [isSolidAtCanvasPoint, h]
  · intro h
    by_cases hr : heatmapReady e = true
    · simp [isSolidAtCanvasPoint, hr, h]
    · simp only [Bool.not_eq_true] at hr
      simp [isSolidAtCanvasPoint, hr]
  · intro h
    simp only [sampledPoint]
    constructor
    · omega
    · omega
  · intro h
    simp only [sampledPoint]
    constructor
    · omega
    · omega
  · intro h
    by_cases hr : heatmapReady e = true
    · refine ⟨hr, ?_⟩
      unfold isSolidAtCanvasPoint at h
      rw [if_pos hr] at h
      cases halpha : e.alpha (sampledPoint e x y).1 (sampledPoint e x y).2 with
      | none => rw [halpha] at h; exact absurd h (by simp)
      | some a =>
        rw [halpha] at h
        exact ⟨a, rfl, by simpa using h⟩
    · simp only [Bool.not_eq_true] at hr
      rw [isSolidAtCanvasPoint, hr] at h
      exact absurd h (by simp)

/-- A ready heatmap environment: a 1280×720 window over a 200×100 stage
image with a 100×50 heatmap buffer whose only opaque pixel is (0, 0). -/
def sampleHeatmapEnv : HeatmapEnv :=
  { hasCtx := true, hasCanvas := true, canvasWpx := 100, canvasHpx := 50,
    hasStageImg := true, stageW := 200, stageH := 100, width := 1280, height := 720,
    alpha := fun ix iy => if ix = 0 && iy = 0 then some 200 else some 0 }

/-- The same environment with a zero-width heatmap buffer. -/
def zeroWidthHeatmapEnv : HeatmapEnv := { sampleHeatmapEnv with canvasWpx := 0 }

/-- The same environment whose every sample fails. -/
def failingSampleHeatmapEnv : HeatmapEnv :=
  { sampleHeatmapEnv with alpha := fun _ _ => none }

/-- C7 witness: the theorem applied to concrete environments — a
zero-width buffer fails closed, a failing sample fails closed, and a far
out-of-range query is clamped into the image bounds. -/
theorem c7_witness :
    isSolidAtCanvasPoint zeroWidthHeatmapEnv 5 5 = false ∧
    isSolidAtCanvasPoint failingSampleHeatmapEnv 5 5 = false ∧
    (0 ≤ (sampledPoint sampleHeatmapEnv (-500) 99999).1 ∧
      (sampledPoint sampleHeatmapEnv (-500) 99999).1 < sampleHeatmapEnv.canvasWpx) ∧
    (0 ≤ (sampledPoint sampleHeatmapEnv (-500) 99999).2 ∧
      (sampledPoint sampleHeatmapEnv (-500) 99999).2 < sampleHeatmapEnv.canvasHpx) :=
  ⟨(c7_isSolid_total_fail_closed zeroWidthHeatmapEnv 5 5).1 (by decide),
   (c7_isSolid_total_fail_closed failingSampleHeatmapEnv 5 5).2.1 rfl,
   (c7_isSolid_total_fail_closed sampleHeatmapEnv (-500) 99999).2.2.1 (by decide),
   (c7_isSolid_total_fail_closed sampleHeatmapEnv (-500) 99999).2.2.2.1 (by decide)⟩

/-! ## C8: agent movement intent versus missing ground -/

/-- A solidity sampler that reports no solid ground anywhere. -/
def noGroundFn : ℤ → ℤ → Bool := fun _ _ => false

/-- A simple-patrol NPC controller with a spawn at x = 500 and the default
48 px edge lookahead. -/
def pitAiState : SimpleAI :=
  { keys := { left := some ("L"), right := some ("R"), up := some ("U"),
              attack1 := some ("A"), parry := some ("P") },
    spawnX := some 500, simplePatrol := true }

/-- The controlled, grounded NPC at x = 100. -/
def pitNpc : Fighter := { tag := 2, x := 100, y := 0, onGround := true }

/-- The opponent standing in aggro range at x = 300. -/
def pitPlayer : Fighter := { tag := 1, x := 300, y := 0 }

/-- C8, counterexample: with the NPC grounded and the solidity sampler
reporting no solid ground anywhere (in particular at the fixed lookahead
distance at foot height), one `SimpleAI.update` call in the
simple-patrol/aggro mode still leaves the rightward movement intent set —
this path performs no ground-ahead check at all, so the claimed
implication fails. -/
theorem c8_counterexample :
    pitNpc.onGround = true ∧
    noGroundFn ⌊pitNpc.x + pitNpc.w * (1/2) + pitAiState.edgeLookahead⌋
      ⌊pitNpc.y + pitNpc.h + 2⌋ = false ∧
    (pitAiState.update (some noGroundFn) [] (1/60) (fun _ => false)
      pitNpc pitPlayer []).2.1 ("R") = true := by
  refine ⟨rfl, rfl, ?_⟩
  norm_num [SimpleAI.update, SimpleAI.updatePatrol, SimpleAI.isPlayerInSight,
    setIfTruthy, setKey, keyTruthy, pitAiState, pitNpc, pitPlayer, noGroundFn,
    (by decide : ("L" : String) ≠ ""), (by decide : ("R" : String) ≠ ""),
    (by decide : ("U" : String) ≠ ""), (by decide : ("A" : String) ≠ ""),
    (by decide : ("P" : String) ≠ ""), (by decide : ("R" : String) ≠ "L"),
    (by decide : ("R" : String) ≠ "U"), (by decide : ("R" : String) ≠ "A"),
    (by decide : ("R" : String) ≠ "P")]

/-- C8 (amended): the ground-ahead suppression holds only for the
edge-safety filter applied to registry-behavior intents: while the actor
is grounded, the filtered intent is false in every direction whose
solidity sample at the fixed lookahead distance at foot height reports no
solid ground (and no jump is issued there) — but later fallback logic and
the simple-patrol/aggro path write movement keys without this check, so
the final merged input may still point toward missing ground. -/
theorem c8_edge_filter (st : SimpleAI) (sA : ℤ → ℤ → Bool) (p2 : Fighter)
    (leftKey rightKey : String) (safeIntent : String → Bool)
    (hg : p2.onGround = true) (hne : leftKey ≠ rightKey)
    (hR : sA ⌊p2.x + p2.w * (1/2) + st.edgeLookahead⌋ ⌊p2.y + p2.h + 2⌋ = false)
    (hL : sA ⌊p2.x + p2.w * (1/2) - st.edgeLookahead⌋ ⌊p2.y + p2.h + 2⌋ = false) :
    st.edgeFilterLR (some sA) p2 leftKey rightKey safeIntent leftKey = false ∧
    st.edgeFilterLR (some sA) p2 leftKey rightKey safeIntent rightKey = false := by
  have hne' : rightKey ≠ leftKey := Ne.symm hne
  by_cases h0 : safeIntent leftKey = true <;>
    by_cases h2 : safeIntent rightKey = true <;>
      by_cases hdL : st.disallowMoveBeyondSpawn p2 (-1) = true <;>
        by_cases hdR : st.disallowMoveBeyondSpawn p2 1 = true <;>
          simp_all [SimpleAI.edgeFilterLR, setKey]

/-- C8 witness: the amended filter theorem at a concrete grounded NPC and
a behavior intent pressing both directions over missing ground. -/
theorem c8_witness :
    pitAiState.edgeFilterLR (some noGroundFn) pitNpc ("L") ("R")
      (fun s => s = "L" || s = "R") "L" = false ∧
    pitAiState.edgeFilterLR (some noGroundFn) pitNpc ("L") ("R")
      (fun s => s = "L" || s = "R") "R" = false :=
  c8_edge_filter pitAiState noGroundFn pitNpc ("L") ("R") (fun s => s = "L" || s = "R")
    rfl (by decide) rfl rfl
